import Mathlib

/-!
# Verification of the `websocket-async` connection adapter

Shallow embedding of `src/websocket-client.js` (the `WebSocketClient` class).
The adapter owns one WebSocket handle, a queue of buffered inbound messages
(`_receiveDataQueue`), a queue of pending receive callbacks
(`_receiveCallbacksQueue`), and the terminal close record (`_closeEvent`).

Modelling choices, all read off the JavaScript source:

* The socket handle is `Option ReadyState`: `none` models `_socket` being
  `undefined` (never assigned), `some rs` models a socket whose `readyState`
  is `rs`.  `connected` is the source's
  `this._socket != null && this._socket.readyState === WebSocket.OPEN`.
* Promise payloads are a type parameter `α`; message payloads are forwarded
  unmodified, so nothing about them is assumed.
* Entries of `_receiveCallbacksQueue` are one of two shapes, exactly the two
  shapes the source ever pushes: a genuine `receive()` promise's
  `{resolve, reject}` pair (`Waiter.receiver id`, identified by a caller-chosen
  id), or the self-re-enqueueing callback object built inside `disconnect`
  (`Waiter.disconnectWaiter id`).  Invoking a waiter's `resolve`/`reject`
  is modelled by the case analysis inside `handleMessage` / `drainLoop`:
  a receiver's `resolve d` settles its promise with `d`, its `reject r`
  rejects it with `r`; a disconnect waiter's `resolve _` pushes the object
  back onto the queue and settles nothing, and its `reject` field *is* the
  disconnect promise's `resolve`, so it resolves the disconnect promise.
* Promise settlements and transport calls are returned as explicit lists, in
  the order the source performs them.
* Each public operation is a pure function on `ClientState`; transport events
  (`open`, `message`, `close`) are separate functions, since the runtime
  delivers them between public calls on the single JS thread.
-/

namespace WebsocketAsync

/-- The four `WebSocket.readyState` values. -/
inductive ReadyState where
  | CONNECTING
  | OPEN
  | CLOSING
  | CLOSED
deriving DecidableEq, Repr

/-- A DOM `CloseEvent`, as far as the adapter reads it: the terminal record. -/
structure CloseEvent where
  code : Nat
  reason : String
  wasClean : Bool
deriving DecidableEq, Repr

/-- The value thrown / used for rejection when not connected:
`this._closeEvent || new Error('Not connected.')`. -/
inductive RejectReason where
  | closeEvent (e : CloseEvent)
  | notConnected
deriving DecidableEq, Repr

/-- An entry of `_receiveCallbacksQueue`: either a genuine `receive()`
promise's callback pair, or the callback object `disconnect` pushes
(whose `resolve` re-enqueues itself and whose `reject` resolves the
disconnect promise). -/
inductive Waiter where
  | receiver (id : Nat)
  | disconnectWaiter (id : Nat)
deriving DecidableEq, Repr

/-- The mutable fields of a `WebSocketClient` instance. -/
structure ClientState (α : Type) where
  socket : Option ReadyState
  closeEvent : Option CloseEvent
  receiveCallbacksQueue : List Waiter
  receiveDataQueue : List α
deriving DecidableEq, Repr

/-- State right after `new WebSocketClient` (the constructor calls
`_reset()`; `_socket` is still unassigned). -/
def initState {α : Type} : ClientState α :=
  { socket := none, closeEvent := none,
    receiveCallbacksQueue := [], receiveDataQueue := [] }

/-- `get connected()`: `this._socket != null && this._socket.readyState === WebSocket.OPEN`. -/
def connected {α : Type} (s : ClientState α) : Bool :=
  match s.socket with
  | some ReadyState.OPEN => true
  | _ => false

/-- `get dataAvailable()`: `this._receiveDataQueue.length`. -/
def dataAvailable {α : Type} (s : ClientState α) : Nat :=
  s.receiveDataQueue.length

/-- `this._closeEvent || new Error('Not connected.')` (JS `||` on a
nullable object: the close event if one is recorded, else a fresh
not-connected error). -/
def closeEventOrNotConnected {α : Type} (s : ClientState α) : RejectReason :=
  match s.closeEvent with
  | some e => RejectReason.closeEvent e
  | none => RejectReason.notConnected

/-- `_reset()`: empties both queues and clears `_closeEvent`;
`_socket` is not touched. -/
def reset {α : Type} (s : ClientState α) : ClientState α :=
  { s with
      receiveDataQueue := [],
      receiveCallbacksQueue := [],
      closeEvent := none }

/-- `this._socket = new WebSocket(url, protocols)`: a fresh socket starts in
`CONNECTING`. -/
def newSocket {α : Type} (s : ClientState α) : ClientState α :=
  { s with socket := some ReadyState.CONNECTING }

/-- The `open` event: the socket has reached `OPEN` (listeners for
`message` and `close` are installed by `handleOpen` in the source, and the
`connect` promise resolves). -/
def handleOpen {α : Type} (s : ClientState α) : ClientState α :=
  { s with socket := some ReadyState.OPEN }

/-- The immediate outcome of a `receive()` call. -/
inductive ReceiveResult (α : Type) where
  | resolved (d : α)
  | rejected (r : RejectReason)
  | pending (id : Nat)
deriving DecidableEq, Repr

/-- The outcome of a `send()` call: returned normally, or threw. -/
inductive SendResult where
  | sent
  | threw (r : RejectReason)
deriving DecidableEq, Repr

/-- The immediate outcome of a `disconnect()` call. The source's executor
never invokes the promise's `reject` parameter, so there is no failure
constructor: a disconnect promise either resolves at once or stays pending. -/
inductive DisconnectResult where
  | resolvedNow (e : Option CloseEvent)
  | pending (id : Nat)
deriving DecidableEq, Repr

/-- A call made on the underlying transport (`this._socket`). -/
inductive TransportCall (α : Type) where
  | send (d : α)
  | close (code : Option Nat) (reason : Option String)
deriving DecidableEq, Repr

/-- A promise settlement performed by the adapter after the initial call
returned: a pending `receive()` resolving or rejecting, or a pending
`disconnect()` resolving. -/
inductive Settlement (α : Type) where
  | receiveResolved (id : Nat) (d : α)
  | receiveRejected (id : Nat) (r : RejectReason)
  | disconnectResolved (id : Nat) (e : Option CloseEvent)
deriving DecidableEq, Repr

/-- `send(data)`: throws `this._closeEvent || new Error('Not connected.')`
when not connected (and performs no socket call); otherwise calls
`this._socket.send(data)`. -/
def send {α : Type} (s : ClientState α) (d : α) :
    ClientState α × SendResult × List (TransportCall α) :=
  if connected s then (s, SendResult.sent, [TransportCall.send d])
  else (s, SendResult.threw (closeEventOrNotConnected s), [])

/-- `receive()`: if `_receiveDataQueue` is non-empty, resolve at once with
`shift()` of it; else if not connected, reject at once; else push a new
`{resolve, reject}` entry (here tagged `id`) and stay pending. -/
def receive {α : Type} (s : ClientState α) (id : Nat) :
    ClientState α × ReceiveResult α × List (TransportCall α) :=
  match s.receiveDataQueue with
  | d :: rest =>
      ({ s with receiveDataQueue := rest }, ReceiveResult.resolved d, [])
  | [] =>
      if connected s then
        ({ s with
            receiveCallbacksQueue := s.receiveCallbacksQueue ++ [Waiter.receiver id] },
         ReceiveResult.pending id, [])
      else (s, ReceiveResult.rejected (closeEventOrNotConnected s), [])

/-- `disconnect(code, reason)`: if not connected, resolve at once with
`this._closeEvent`; else push the self-re-enqueueing callback object and call
`this._socket.close(code, reason)` (which moves the socket to `CLOSING`). -/
def disconnect {α : Type} (s : ClientState α) (id : Nat)
    (code : Option Nat) (reason : Option String) :
    ClientState α × DisconnectResult × List (TransportCall α) :=
  if connected s then
    ({ s with
        receiveCallbacksQueue := s.receiveCallbacksQueue ++ [Waiter.disconnectWaiter id],
        socket := some ReadyState.CLOSING },
     DisconnectResult.pending id, [TransportCall.close code reason])
  else (s, DisconnectResult.resolvedNow s.closeEvent, [])

/-- The `message` event listener `handleMessage`: if `_receiveCallbacksQueue`
is non-empty, `shift()` it and call the entry's `resolve(event.data)` — for a
genuine receiver that settles its promise with the data; for a disconnect
waiter `resolve` pushes the object back onto the queue and the data is
settled nowhere.  If the queue is empty, `push` the data onto
`_receiveDataQueue`. -/
def handleMessage {α : Type} (s : ClientState α) (d : α) :
    ClientState α × List (Settlement α) :=
  match s.receiveCallbacksQueue with
  | Waiter.receiver id :: rest =>
      ({ s with receiveCallbacksQueue := rest },
       [Settlement.receiveResolved id d])
  | Waiter.disconnectWaiter id :: rest =>
      ({ s with receiveCallbacksQueue := rest ++ [Waiter.disconnectWaiter id] },
       [])
  | [] =>
      ({ s with receiveDataQueue := s.receiveDataQueue ++ [d] }, [])

/-- What `entry.reject(this._closeEvent)` does to one queue entry during the
close drain: a genuine receiver's promise rejects with the close event; a
disconnect waiter's `reject` field is the disconnect promise's `resolve`, so
that promise resolves with the close event. Neither callback touches the
queue. -/
def settleOnClose {α : Type} (e : CloseEvent) : Waiter → Settlement α
  | Waiter.receiver id => Settlement.receiveRejected id (RejectReason.closeEvent e)
  | Waiter.disconnectWaiter id => Settlement.disconnectResolved id (some e)

/-- The `while (queue.length !== 0) queue.shift().reject(closeEvent)` loop of
the close listener.  Since neither kind of `reject` callback re-enqueues,
each iteration removes exactly the head, so the loop is this structural
recursion and leaves the queue empty. -/
def drainLoop {α : Type} (e : CloseEvent) : List Waiter → List (Settlement α)
  | [] => []
  | w :: rest => settleOnClose e w :: drainLoop e rest

/-- The `close` event listener: by the time it fires the socket's
`readyState` is `CLOSED`; it stores the event in `this._closeEvent` and then
drains `_receiveCallbacksQueue`, rejecting every entry with that event. -/
def handleClose {α : Type} (s : ClientState α) (e : CloseEvent) :
    ClientState α × List (Settlement α) :=
  ({ s with
      socket := some ReadyState.CLOSED,
      closeEvent := some e,
      receiveCallbacksQueue := [] },
   drainLoop e s.receiveCallbacksQueue)

/-- `connect(url, protocols)` up to the point where the new socket starts
connecting: `this.disconnect().then(() => { this._reset(); this._socket =
new WebSocket(url, protocols); ... })`.  If a connection was open,
`disconnect()` leaves a pending waiter and the continuation only runs after
the transport delivers the close event `e` (which performs the terminal
drain); if not, `disconnect()` resolves at once and the continuation runs
directly.  Either way `disconnect`'s value is discarded, `_reset()` runs,
and a fresh `CONNECTING` socket is installed. -/
def connect {α : Type} (s : ClientState α) (id : Nat) (e : CloseEvent) :
    ClientState α × List (Settlement α) × List (TransportCall α) :=
  if connected s then
    match disconnect s id none none with
    | (s1, _, calls) =>
        match handleClose s1 e with
        | (s2, outs) => (newSocket (reset s2), outs, calls)
  else (newSocket (reset s), [], [])

/-- One atomic step on the adapter, for reachability arguments: a public
call's state effect, a transport event, or the reset-and-reopen continuation
of `connect` (the part of `connect` that runs once its inner `disconnect()`
has resolved).  Events are allowed in any state, which over-approximates the
schedules the browser can produce. -/
inductive Op (α : Type) where
  | connectCont
  | openEvt
  | closeEvt (e : CloseEvent)
  | msgEvt (d : α)
  | receiveCall (id : Nat)
  | sendCall (d : α)
  | disconnectCall (id : Nat) (code : Option Nat) (reason : Option String)
deriving DecidableEq, Repr

/-- The state effect of one step. -/
def applyOp {α : Type} (s : ClientState α) : Op α → ClientState α
  | Op.connectCont => newSocket (reset s)
  | Op.openEvt => handleOpen s
  | Op.closeEvt e => (handleClose s e).1
  | Op.msgEvt d => (handleMessage s d).1
  | Op.receiveCall id => (receive s id).1
  | Op.sendCall d => (send s d).1
  | Op.disconnectCall id code reason => (disconnect s id code reason).1

/-- Run a sequence of steps from a state. -/
def runOps {α : Type} (s : ClientState α) (ops : List (Op α)) : ClientState α :=
  ops.foldl applyOp s

/-- An adapter whose connection is open and whose queues are empty: the state
right after a successful `connect`, once the `open` event has fired. -/
def openState : ClientState Nat :=
  { socket := some ReadyState.OPEN, closeEvent := none,
    receiveCallbacksQueue := [], receiveDataQueue := [] }

/-- An adapter whose connection has closed with `{code 1000, reason "bye",
clean}` and which still holds one buffered message `5`. -/
def closedWithBuffered : ClientState Nat :=
  { socket := some ReadyState.CLOSED,
    closeEvent := some { code := 1000, reason := "bye", wasClean := true },
    receiveCallbacksQueue := [], receiveDataQueue := [5] }

/-- An adapter whose connection has closed with `{code 1000, reason "bye",
clean}` and whose queues are empty. -/
def closedState : ClientState Nat :=
  { socket := some ReadyState.CLOSED,
    closeEvent := some { code := 1000, reason := "bye", wasClean := true },
    receiveCallbacksQueue := [], receiveDataQueue := [] }

/-- C7: whenever the buffered-message queue is non-empty, `receive()`
resolves immediately with the oldest buffered message and removes it, in
every adapter state — the data-queue branch of `receive` runs before any
connectedness check, so this holds also after the connection has closed. -/
theorem receive_drains_buffer_first {α : Type} (s : ClientState α) (d : α)
    (rest : List α) (id : Nat) (h : s.receiveDataQueue = d :: rest) :
    receive s id =
      ({ s with receiveDataQueue := rest }, ReceiveResult.resolved d, []) := by
  obtain ⟨sock, ce, cbq, dq⟩ := s
  replace h : dq = d :: rest := h
  subst h
  rfl

/-- C7 witness: on a closed connection with buffered message `5`, `receive`
still resolves immediately with `5`. -/
theorem receive_drains_buffer_first_witness :
    receive closedWithBuffered 0 =
      ({ closedWithBuffered with receiveDataQueue := [] },
       ReceiveResult.resolved 5, []) :=
  receive_drains_buffer_first closedWithBuffered 5 [] 0 rfl

/-- C10: a `receive()` made while the buffered-message queue is non-empty
removes exactly the head of that queue and changes nothing else: the
pending-receiver queue, the terminal record and the socket handle are
untouched, and no transport call is made. -/
theorem receive_buffered_frame {α : Type} (s : ClientState α) (d : α)
    (rest : List α) (id : Nat) (h : s.receiveDataQueue = d :: rest) :
    (receive s id).1.receiveCallbacksQueue = s.receiveCallbacksQueue ∧
    (receive s id).1.closeEvent = s.closeEvent ∧
    (receive s id).1.socket = s.socket ∧
    (receive s id).1.receiveDataQueue = rest ∧
    (receive s id).2.1 = ReceiveResult.resolved d ∧
    (receive s id).2.2 = [] := by
  obtain ⟨sock, ce, cbq, dq⟩ := s
  replace h : dq = d :: rest := h
  subst h
  exact ⟨rfl, rfl, rfl, rfl, rfl, rfl⟩

/-- C10 witness: instantiated on a closed adapter holding the buffered
message `5` and the recorded close event of the ended connection. -/
theorem receive_buffered_frame_witness :
    ((receive closedWithBuffered 2).1.receiveCallbacksQueue = [] ∧
     (receive closedWithBuffered 2).1.closeEvent =
       some { code := 1000, reason := "bye", wasClean := true } ∧
     (receive closedWithBuffered 2).1.socket = some ReadyState.CLOSED ∧
     (receive closedWithBuffered 2).1.receiveDataQueue = [] ∧
     (receive closedWithBuffered 2).2.1 = ReceiveResult.resolved 5 ∧
     (receive closedWithBuffered 2).2.2 = []) :=
  receive_buffered_frame closedWithBuffered 5 [] 2 rfl

/-- C5: `send(data)` on a non-connected adapter throws the terminal record
when one exists (else a generic not-connected error) and performs no
transport call; on a connected adapter it forwards `data` unmodified to the
transport's send primitive. -/
theorem send_precondition {α : Type} (s : ClientState α) (d : α) :
    (connected s = false →
       send s d = (s, SendResult.threw (closeEventOrNotConnected s), []) ∧
       (∀ e, s.closeEvent = some e →
          closeEventOrNotConnected s = RejectReason.closeEvent e) ∧
       (s.closeEvent = none →
          closeEventOrNotConnected s = RejectReason.notConnected)) ∧
    (connected s = true →
       send s d = (s, SendResult.sent, [TransportCall.send d])) := by
  constructor
  · intro h
    refine ⟨by simp [send, h], ?_, ?_⟩
    · intro e he; simp [closeEventOrNotConnected, he]
    · intro he; simp [closeEventOrNotConnected, he]
  · intro h
    simp [send, h]

/-- C5 witness: a never-connected adapter throws the generic error with no
transport call; a closed adapter throws its terminal record; an open adapter
performs exactly one transport send of the unmodified payload. -/
theorem send_precondition_witness :
    send (initState : ClientState Nat) 7 =
      (initState, SendResult.threw RejectReason.notConnected, []) ∧
    send closedState 7 =
      (closedState,
       SendResult.threw (RejectReason.closeEvent
         { code := 1000, reason := "bye", wasClean := true }), []) ∧
    send openState 7 = (openState, SendResult.sent, [TransportCall.send 7]) := by
  refine ⟨?_, ?_, ?_⟩
  · have h := ((send_precondition (initState : ClientState Nat) 7).1 rfl).1
    simpa [closeEventOrNotConnected, initState] using h
  · have h := ((send_precondition closedState 7).1 rfl).1
    simpa [closeEventOrNotConnected, closedState] using h
  · exact (send_precondition openState 7).2 rfl

/-- C8: `disconnect` called while not connected resolves immediately with
the existing terminal record, performs no transport close call and leaves
the state unchanged; on a never-connected adapter the resolved value is
absent (`none`). -/
theorem disconnect_not_connected {α : Type} (s : ClientState α) (id : Nat)
    (code : Option Nat) (reason : Option String) (h : connected s = false) :
    disconnect s id code reason =
      (s, DisconnectResult.resolvedNow s.closeEvent, []) ∧
    disconnect (initState : ClientState α) id code reason =
      (initState, DisconnectResult.resolvedNow none, []) := by
  constructor
  · simp [disconnect, h]
  · simp [disconnect, connected, initState]

/-- C8 witness: on a closed adapter, `disconnect` resolves at once with the
recorded close event and makes no transport call; on a fresh adapter it
resolves at once with `none`. -/
theorem disconnect_not_connected_witness :
    disconnect closedState 0 none none =
      (closedState,
       DisconnectResult.resolvedNow
         (some { code := 1000, reason := "bye", wasClean := true }), []) ∧
    disconnect (initState : ClientState Nat) 0 none none =
      (initState, DisconnectResult.resolvedNow none, []) :=
  disconnect_not_connected closedState 0 none none rfl

/-- C9: when the head of the pending-receiver queue is the callback object
pushed by an in-flight `disconnect`, an arriving message is delivered to no
receiver and not buffered: the waiter's `resolve` merely re-enqueues the
waiter at the tail, and the payload is dropped. -/
theorem message_discarded_during_close {α : Type} (s : ClientState α)
    (id : Nat) (rest : List Waiter) (d : α)
    (h : s.receiveCallbacksQueue = Waiter.disconnectWaiter id :: rest) :
    handleMessage s d =
      ({ s with receiveCallbacksQueue := rest ++ [Waiter.disconnectWaiter id] },
       []) := by
  obtain ⟨sock, ce, cbq, dq⟩ := s
  replace h : cbq = Waiter.disconnectWaiter id :: rest := h
  subst h
  rfl

/-- C9 witness: `disconnect` is called on an open adapter, then a message
with payload `9` arrives; the adapter state is unchanged (the waiter went
around the queue) and no settlement carries the payload — `9` is lost. -/
theorem message_discarded_during_close_witness :
    handleMessage (disconnect openState 0 none none).1 9 =
      ((disconnect openState 0 none none).1, []) := by
  have h := message_discarded_during_close
    (disconnect openState 0 none none).1 0 [] 9 rfl
  exact h

/-- Genuine `receive()` entries never coexist with buffered data: either the
buffered-message queue is empty, or the callbacks queue holds no
`Waiter.receiver` entry. -/
def queueExclusiveReceivers {α : Type} (s : ClientState α) : Prop :=
  s.receiveDataQueue = [] ∨
    ∀ id, Waiter.receiver id ∉ s.receiveCallbacksQueue

/-- Every single step preserves `queueExclusiveReceivers`. -/
theorem applyOp_queueExclusive {α : Type} (s : ClientState α) (op : Op α)
    (h : queueExclusiveReceivers s) :
    queueExclusiveReceivers (applyOp s op) := by
  obtain ⟨sock, ce, cbq, dq⟩ := s
  cases op with
  | connectCont =>
      left; rfl
  | openEvt =>
      exact h
  | closeEvt e =>
      right; intro id
      simp [applyOp, handleClose]
  | msgEvt d =>
      cases cbq with
      | nil =>
          right; intro id
          simp [applyOp, handleMessage]
      | cons w rest =>
          cases w with
          | receiver rid =>
              rcases h with hdq | hrec
              · replace hdq : dq = [] := hdq
                subst hdq
                left
                simp [applyOp, handleMessage]
              · exact absurd (List.mem_cons_self _ _) (hrec rid)
          | disconnectWaiter wid =>
              rcases h with hdq | hrec
              · replace hdq : dq = [] := hdq
                subst hdq
                left
                simp [applyOp, handleMessage]
              · right; intro id
                simp only [applyOp, handleMessage]
                intro hmem
                rcases List.mem_append.mp hmem with h1 | h2
                · exact hrec id (List.mem_cons_of_mem _ h1)
                · simp at h2
  | receiveCall id0 =>
      cases dq with
      | nil =>
          cases hc : connected (⟨sock, ce, cbq, []⟩ : ClientState α) with
          | true =>
              left
              simp [applyOp, receive, hc]
          | false =>
              rcases h with hdq | hrec
              · left; simp [applyOp, receive, hc]
              · right; intro id
                simp only [applyOp, receive, hc]
                exact hrec id
      | cons d rest =>
          rcases h with hdq | hrec
          · cases hdq
          · right; intro id
            simpa [applyOp, receive] using hrec id
  | sendCall d =>
      cases hc : connected (⟨sock, ce, cbq, dq⟩ : ClientState α) with
      | true => simpa [applyOp, send, hc] using h
      | false => simpa [applyOp, send, hc] using h
  | disconnectCall id0 code reason =>
      cases hc : connected (⟨sock, ce, cbq, dq⟩ : ClientState α) with
      | false => simpa [applyOp, disconnect, hc] using h
      | true =>
          rcases h with hdq | hrec
          · left; simpa [applyOp, disconnect, hc] using hdq
          · right; intro id
            simp only [applyOp, disconnect, hc]
            intro hmem
            rcases List.mem_append.mp hmem with h1 | h2
            · exact hrec id h1
            · simp at h2

/-- C2 (amended): after every sequence of steps from a fresh adapter, the
buffered-message queue and the *genuine receiver* entries of
`_receiveCallbacksQueue` are never simultaneously non-empty: whenever
buffered data exists, the callbacks queue contains no `receive()` entry.
(The raw queues *can* be simultaneously non-empty, because `disconnect`
pushes its waiter object without checking the data queue — see the
counterexample.) -/
theorem queue_exclusivity (ops : List (Op Nat)) :
    (runOps initState ops).receiveDataQueue = [] ∨
    ∀ id, Waiter.receiver id ∉ (runOps initState ops).receiveCallbacksQueue := by
  have main : ∀ (l : List (Op Nat)) (s : ClientState Nat),
      queueExclusiveReceivers s → queueExclusiveReceivers (runOps s l) := by
    intro l
    induction l with
    | nil => intro s h; exact h
    | cons op rest ih =>
        intro s h
        exact ih _ (applyOp_queueExclusive s op h)
  exact main ops initState (Or.inl rfl)

/-- C2 counterexample: connect, open, one message arrives (it is buffered),
then `disconnect()` is called — now `_receiveDataQueue = [5]` and
`_receiveCallbacksQueue` holds the disconnect waiter, so the two queues are
simultaneously non-empty after a reachable sequence of operations. -/
theorem queues_simultaneously_nonempty :
    (runOps (initState : ClientState Nat)
      [Op.connectCont, Op.openEvt, Op.msgEvt 5,
       Op.disconnectCall 0 none none]).receiveDataQueue ≠ [] ∧
    (runOps (initState : ClientState Nat)
      [Op.connectCont, Op.openEvt, Op.msgEvt 5,
       Op.disconnectCall 0 none none]).receiveCallbacksQueue ≠ [] := by
  decide

/-- The close-drain while loop settles each queue entry in order with the
close event and nothing else: it equals a map over the queue. -/
theorem drainLoop_eq_map {α : Type} (e : CloseEvent) (q : List Waiter) :
    drainLoop (α := α) e q = q.map (settleOnClose e) := by
  induction q with
  | nil => rfl
  | cons w rest ih => simp [drainLoop, ih]

/-- C3 (amended): when the close event fires, the terminal record is set and
every entry of the pending queue is popped FIFO and settled with that same
record (genuine receivers are failed with it), leaving the queue empty; and
afterwards every new `receive()` made *while the buffered-message queue is
empty* fails immediately with that same record.  (A `receive()` made while
buffered messages remain resolves with the oldest buffered message instead —
see the counterexample.) -/
theorem terminal_drain {α : Type} (s : ClientState α) (e : CloseEvent) :
    (handleClose s e =
      ({ s with
          socket := some ReadyState.CLOSED,
          closeEvent := some e,
          receiveCallbacksQueue := [] },
       s.receiveCallbacksQueue.map (settleOnClose e))) ∧
    (∀ (s2 : ClientState α) (id : Nat),
       s2.closeEvent = some e → connected s2 = false →
       s2.receiveDataQueue = [] →
       receive s2 id =
         (s2, ReceiveResult.rejected (RejectReason.closeEvent e), [])) := by
  constructor
  · simp [handleClose, drainLoop_eq_map]
  · intro s2 id h1 h2 h3
    obtain ⟨sock, ce, cbq, dq⟩ := s2
    replace h3 : dq = [] := h3
    subst h3
    replace h1 : ce = some e := h1
    subst h1
    simp [receive, h2, closeEventOrNotConnected]

/-- C3 witness: a close event `{1000, "bye", clean}` drains a queue holding
one genuine receiver and one disconnect waiter, rejecting the receiver and
resolving the waiter with that record; and on the resulting empty-buffer
closed adapter a fresh `receive` rejects immediately with the same record. -/
theorem terminal_drain_witness :
    handleClose (α := Nat)
      { socket := some ReadyState.OPEN, closeEvent := none,
        receiveCallbacksQueue := [Waiter.receiver 0, Waiter.disconnectWaiter 1],
        receiveDataQueue := [] }
      { code := 1000, reason := "bye", wasClean := true } =
      ({ socket := some ReadyState.CLOSED,
         closeEvent := some { code := 1000, reason := "bye", wasClean := true },
         receiveCallbacksQueue := [], receiveDataQueue := [] },
       [Settlement.receiveRejected 0 (RejectReason.closeEvent
          { code := 1000, reason := "bye", wasClean := true }),
        Settlement.disconnectResolved 1
          (some { code := 1000, reason := "bye", wasClean := true })]) ∧
    receive closedState 3 =
      (closedState,
       ReceiveResult.rejected (RejectReason.closeEvent
         { code := 1000, reason := "bye", wasClean := true }), []) := by
  constructor
  · exact (terminal_drain (α := Nat)
      { socket := some ReadyState.OPEN, closeEvent := none,
        receiveCallbacksQueue := [Waiter.receiver 0, Waiter.disconnectWaiter 1],
        receiveDataQueue := [] }
      { code := 1000, reason := "bye", wasClean := true }).1
  · exact (terminal_drain (α := Nat) closedState
      { code := 1000, reason := "bye", wasClean := true }).2 closedState 3 rfl rfl rfl

/-- C3 counterexample: the connection closes while message `5` is still
buffered; the terminal record is set, yet a new `receive()` resolves with
`5` instead of failing with that record — refuting the claim that after the
drain *every* new `receive()` fails immediately with the terminal record. -/
theorem receive_after_close_resolves :
    (runOps (initState : ClientState Nat)
      [Op.connectCont, Op.openEvt, Op.msgEvt 5,
       Op.closeEvt { code := 1000, reason := "bye", wasClean := true }]).closeEvent =
      some { code := 1000, reason := "bye", wasClean := true } ∧
    (receive (runOps (initState : ClientState Nat)
      [Op.connectCont, Op.openEvt, Op.msgEvt 5,
       Op.closeEvt { code := 1000, reason := "bye", wasClean := true }]) 0).2.1 =
      ReceiveResult.resolved 5 := by
  decide

/-- Steps that neither reset the adapter (`connect`'s continuation) nor
deliver the terminal close event: message events, the open event, and
receive/send/disconnect calls. -/
def keepsWaiters {α : Type} : Op α → Bool
  | Op.connectCont => false
  | Op.closeEvt _ => false
  | _ => true

/-- A disconnect waiter stays in the callbacks queue across every step other
than a reset or the close event itself: `handleMessage` either pops a
receiver ahead of it, or pops the waiter and immediately re-enqueues it. -/
theorem waiter_survives {α : Type} (s : ClientState α) (op : Op α) (id : Nat)
    (hop : keepsWaiters op = true)
    (h : Waiter.disconnectWaiter id ∈ s.receiveCallbacksQueue) :
    Waiter.disconnectWaiter id ∈ (applyOp s op).receiveCallbacksQueue := by
  obtain ⟨sock, ce, cbq, dq⟩ := s
  cases op with
  | connectCont => cases hop
  | closeEvt e => cases hop
  | openEvt => exact h
  | msgEvt d =>
      cases cbq with
      | nil => cases h
      | cons w rest =>
          cases w with
          | receiver rid =>
              rcases List.mem_cons.mp h with h1 | h2
              · cases h1
              · simpa [applyOp, handleMessage] using h2
          | disconnectWaiter wid =>
              rcases List.mem_cons.mp h with h1 | h2
              · simp only [applyOp, handleMessage]
                cases h1
                exact List.mem_append_right _ (List.mem_singleton.mpr rfl)
              · simp only [applyOp, handleMessage]
                exact List.mem_append_left _ h2
  | receiveCall id0 =>
      cases dq with
      | nil =>
          cases hc : connected (⟨sock, ce, cbq, []⟩ : ClientState α) with
          | true =>
              simp only [applyOp, receive, hc]
              exact List.mem_append_left _ h
          | false =>
              simpa [applyOp, receive, hc] using h
      | cons d rest =>
          simpa [applyOp, receive] using h
  | sendCall d =>
      cases hc : connected (⟨sock, ce, cbq, dq⟩ : ClientState α) with
      | true => simpa [applyOp, send, hc] using h
      | false => simpa [applyOp, send, hc] using h
  | disconnectCall id0 code reason =>
      cases hc : connected (⟨sock, ce, cbq, dq⟩ : ClientState α) with
      | true =>
          simp only [applyOp, disconnect, hc]
          exact List.mem_append_left _ h
      | false => simpa [applyOp, disconnect, hc] using h

/-- The close drain settles every disconnect waiter present in the queue by
resolving it with the close event. -/
theorem drainLoop_settles_waiter {α : Type} (e : CloseEvent) (q : List Waiter)
    (id : Nat) (h : Waiter.disconnectWaiter id ∈ q) :
    Settlement.disconnectResolved id (some e) ∈ drainLoop (α := α) e q := by
  induction q with
  | nil => cases h
  | cons w rest ih =>
      rcases List.mem_cons.mp h with h1 | h2
      · subst h1
        exact List.mem_cons_self _ _
      · exact List.mem_cons_of_mem _ (ih h2)

/-- C4 (amended): `disconnect` never rejects.  Not connected (never
connected, connecting, closing or closed): it resolves immediately with the
existing terminal record.  Connected: its promise is pending, and —
provided no `connect()` call intervenes before the close event
(`keepsWaiters` excludes exactly the `connect` continuation, whose
`_reset()` drops the waiter, and the close event itself) — the close event,
once observed, resolves it with the terminal close record after any
interleaving of message events and further calls.  The source never invokes
the disconnect promise's `reject`, so `DisconnectResult` has no failure
constructor at all; orphaning by an intervening `connect` (see the
counterexample) leaves the promise forever pending, never rejected. -/
theorem disconnect_never_fails {α : Type} (s : ClientState α) (id : Nat)
    (code : Option Nat) (reason : Option String) :
    (connected s = false →
       disconnect s id code reason =
         (s, DisconnectResult.resolvedNow s.closeEvent, [])) ∧
    (connected s = true →
       (disconnect s id code reason).2.1 = DisconnectResult.pending id ∧
       ∀ (ops : List (Op α)), (∀ op ∈ ops, keepsWaiters op = true) →
         ∀ e, Settlement.disconnectResolved id (some e) ∈
           (handleClose (runOps (disconnect s id code reason).1 ops) e).2) := by
  constructor
  · intro h
    simp [disconnect, h]
  · intro h
    constructor
    · simp [disconnect, h]
    · intro ops hops e
      have h0 : Waiter.disconnectWaiter id ∈
          (disconnect s id code reason).1.receiveCallbacksQueue := by
        simp only [disconnect, h, if_true]
        exact List.mem_append_right _ (List.mem_singleton.mpr rfl)
      have hrun : ∀ (l : List (Op α)) (t : ClientState α),
          (∀ op ∈ l, keepsWaiters op = true) →
          Waiter.disconnectWaiter id ∈ t.receiveCallbacksQueue →
          Waiter.disconnectWaiter id ∈ (runOps t l).receiveCallbacksQueue := by
        intro l
        induction l with
        | nil => intro t _ ht; exact ht
        | cons op rest ih =>
            intro t hl ht
            exact ih _ (fun o ho => hl o (List.mem_cons_of_mem _ ho))
              (waiter_survives t op id (hl op (List.mem_cons_self _ _)) ht)
      exact drainLoop_settles_waiter e _ id (hrun ops _ hops h0)

/-- C4 witness: on a closed adapter `disconnect` resolves at once with the
recorded terminal record; on an open adapter it is pending, and after a
message event the close event `{1000, "bye", clean}` resolves it with that
record. -/
theorem disconnect_never_fails_witness :
    disconnect closedState 4 none none =
      (closedState,
       DisconnectResult.resolvedNow
         (some { code := 1000, reason := "bye", wasClean := true }), []) ∧
    (disconnect openState 0 none none).2.1 = DisconnectResult.pending 0 ∧
    Settlement.disconnectResolved 0
        (some { code := 1000, reason := "bye", wasClean := true }) ∈
      (handleClose (runOps (disconnect openState 0 none none).1 [Op.msgEvt 7])
        { code := 1000, reason := "bye", wasClean := true }).2 := by
  refine ⟨?_, ?_, ?_⟩
  · exact (disconnect_never_fails closedState 4 none none).1 rfl
  · exact ((disconnect_never_fails openState 0 none none).2 rfl).1
  · exact ((disconnect_never_fails openState 0 none none).2 rfl).2
      [Op.msgEvt 7] (by decide) _

/-- C4 counterexample: `disconnect()` on an open adapter leaves a pending
promise and a CLOSING socket.  A `connect()` issued before the close event
observes CLOSING (not OPEN), so its inner `disconnect()` resolves
immediately and its continuation — `_reset()` plus a new socket — runs as a
microtask ahead of the close event, replacing `_receiveCallbacksQueue` and
orphaning the waiter.  When the old socket's close event then fires, the
drain settles nothing: the first disconnect's promise never resolves even
though a connection existed and the close event has been observed. -/
theorem disconnect_promise_orphaned_by_connect :
    (disconnect openState 0 none none).2.1 = DisconnectResult.pending 0 ∧
    connected (disconnect openState 0 none none).1 = false ∧
    (runOps (disconnect openState 0 none none).1
       [Op.connectCont]).receiveCallbacksQueue = [] ∧
    (handleClose (runOps (disconnect openState 0 none none).1 [Op.connectCont])
       { code := 1000, reason := "bye", wasClean := true }).2 = [] := by
  decide

/-- C6 (amended): every `connect` call first runs the disconnect protocol
and awaits it discarding its result (when a connection was open this
includes exactly one transport close call and the terminal drain triggered
by the close event), then `_reset()` empties both queues and clears the
terminal record before the new `CONNECTING` transport is installed; once
the new connection opens, a message `d` arriving on it followed by a
`receive()` yields exactly `d`.  When the prior socket was *not* open
(e.g. still connecting), `connect` makes no transport close call at all —
the old socket is left alive, which is why `receive()` reflecting only
new-connection data cannot be promised in that case (see the
counterexample). -/
theorem reconnect_resets {α : Type} (s : ClientState α) (id : Nat)
    (e : CloseEvent) :
    (connect s id e).1.receiveDataQueue = [] ∧
    (connect s id e).1.receiveCallbacksQueue = [] ∧
    (connect s id e).1.closeEvent = none ∧
    (connect s id e).1.socket = some ReadyState.CONNECTING ∧
    (connected s = true →
       (connect s id e).2.2 = [TransportCall.close none none]) ∧
    (connected s = false → (connect s id e).2.2 = []) ∧
    (∀ d : α,
       (receive (handleMessage (handleOpen (connect s id e).1) d).1 0).2.1 =
         ReceiveResult.resolved d) := by
  cases hc : connected s with
  | true =>
      refine ⟨?_, ?_, ?_, ?_, ?_, ?_, ?_⟩ <;>
        simp [connect, hc, disconnect, handleClose, newSocket, reset,
              handleOpen, handleMessage, receive]
  | false =>
      refine ⟨?_, ?_, ?_, ?_, ?_, ?_, ?_⟩ <;>
        simp [connect, hc, newSocket, reset, handleOpen, handleMessage,
              receive]

/-- C6 witness: reconnecting away from an open adapter clears the buffered
data and terminal record and issues exactly one transport close; a
`connect` on a fresh adapter issues none. -/
theorem reconnect_resets_witness :
    (connect closedWithBuffered 1
       { code := 1001, reason := "away", wasClean := false }).1.receiveDataQueue
      = [] ∧
    (connect closedWithBuffered 1
       { code := 1001, reason := "away", wasClean := false }).1.closeEvent
      = none ∧
    (connect openState 1
       { code := 1001, reason := "away", wasClean := false }).2.2
      = [TransportCall.close none none] ∧
    (connect (initState : ClientState Nat) 1
       { code := 1001, reason := "away", wasClean := false }).2.2 = [] := by
  refine ⟨?_, ?_, ?_, ?_⟩
  · exact (reconnect_resets closedWithBuffered 1
      { code := 1001, reason := "away", wasClean := false }).1
  · exact (reconnect_resets closedWithBuffered 1
      { code := 1001, reason := "away", wasClean := false }).2.2.1
  · exact (reconnect_resets openState 1
      { code := 1001, reason := "away", wasClean := false }).2.2.2.2.1 rfl
  · exact (reconnect_resets (initState : ClientState Nat) 1
      { code := 1001, reason := "away", wasClean := false }).2.2.2.2.2.1 rfl

/-- One underlying WebSocket object the adapter created, in creation order:
its own `readyState`, and whether the adapter's `handleMessage`/close
listeners have been installed on it — its `open` handler does that, and the
listeners stay attached whether or not `this._socket` still points at this
socket. -/
structure SocketObj where
  readyState : ReadyState
  listenersOn : Bool
deriving DecidableEq, Repr

/-- The adapter together with every socket it ever created.  `_socket`
always denotes the most recently created one. -/
structure Harness (α : Type) where
  sockets : List SocketObj
  client : ClientState α
deriving DecidableEq, Repr

/-- The `ClientState` view of the harness: `connected`'s
`this._socket != null && this._socket.readyState` reads the most recently
created socket. -/
def syncSocket {α : Type} (h : Harness α) : Harness α × ClientState α :=
  (h, { h.client with socket := h.sockets.getLast?.map SocketObj.readyState })

/-- `connect(url)` in the case where its inner `disconnect()` resolves
immediately — the current socket, if any, is not OPEN, so `disconnect`
issues no transport close (proved in the counterexample below): `_reset()`
runs and a fresh `CONNECTING` socket is created and becomes `_socket`.
The previous socket, if any, is left exactly as it was. -/
def connectNotOpenH {α : Type} (h : Harness α) : Harness α :=
  { sockets := h.sockets ++ [⟨ReadyState.CONNECTING, false⟩],
    client := newSocket (reset (syncSocket h).2) }

/-- Socket `i` reaches OPEN and its `open` event fires: the captured
`handleOpen` installs the message/close listeners on that very socket and
resolves its connect promise; it writes nothing to the adapter's fields. -/
def openEvtAtH {α : Type} (h : Harness α) (i : Nat) : Harness α :=
  { h with sockets := h.sockets.set i ⟨ReadyState.OPEN, true⟩ }

/-- A `message` event on socket `i`, possible once that socket's listeners
are installed: the captured `handleMessage` closure reads and mutates the
adapter's *current* queues, whichever socket delivered the event. -/
def msgEvtAtH {α : Type} (h : Harness α) (i : Nat) (d : α) : Harness α :=
  if (h.sockets.get? i).map SocketObj.listenersOn = some true then
    { h with client := (handleMessage (syncSocket h).2 d).1 }
  else h

/-- A fresh adapter that has created no socket yet. -/
def freshH : Harness Nat := { sockets := [], client := initState }

/-- The double-connect schedule: `connect(url1)` at once followed by
`connect(url2)` while socket 0 is still CONNECTING. -/
def doubleConnectH : Harness Nat := connectNotOpenH (connectNotOpenH freshH)

/-- …then socket 1 (the new connection) opens, and later the abandoned
socket 0 opens too, installing the adapter's listeners on it. -/
def bothOpenH : Harness Nat := openEvtAtH (openEvtAtH doubleConnectH 1) 0

/-- …then a message with payload `99` arrives on the *old* socket 0. -/
def staleMsgH : Harness Nat := msgEvtAtH bothOpenH 0 99

/-- C6 counterexample: `connect(url2)` issued while the socket of
`connect(url1)` is still CONNECTING.  The inner `disconnect()` of the
second connect sees a non-OPEN socket, resolves at once and issues no
transport close, so socket 0 is never closed; when socket 0 later opens,
its handler installs the adapter's listeners on it, and a message arriving
on that old socket is buffered into the adapter's current (new-connection)
queue: a `receive()` issued after reconnecting resolves with the old
connection's payload `99`, refuting "a subsequent receive() only ever
reflects data from the new connection". -/
theorem receive_reflects_old_connection_data :
    disconnect (syncSocket (connectNotOpenH freshH)).2 9 none none =
      ((syncSocket (connectNotOpenH freshH)).2,
       DisconnectResult.resolvedNow none, []) ∧
    connected (syncSocket (openEvtAtH doubleConnectH 1)).2 = true ∧
    (syncSocket bothOpenH).2.receiveDataQueue = [] ∧
    (receive (syncSocket staleMsgH).2 0).2.1 = ReceiveResult.resolved 99 := by
  decide

/-- One event of an interleaving on an open connection: a `receive()` call
being issued, or a `message` event arriving. -/
inductive FifoEvent where
  | call
  | msg
deriving DecidableEq, Repr

/-- Number of `receive()` calls in an interleaving. -/
def countCalls : List FifoEvent → Nat
  | [] => 0
  | FifoEvent.call :: evs => countCalls evs + 1
  | FifoEvent.msg :: evs => countCalls evs

/-- Number of arriving messages in an interleaving. -/
def countMsgs : List FifoEvent → Nat
  | [] => 0
  | FifoEvent.call :: evs => countMsgs evs
  | FifoEvent.msg :: evs => countMsgs evs + 1

/-- Run an interleaving of `receive()` calls and message arrivals through
`receive` / `handleMessage`.  The i-th `receive()` call (0-based) is given
id `i`, and the j-th arriving message carries payload `j`, so a settlement
`receiveResolved i j` says precisely that the i-th call received the j-th
message.  A `receive` that resolves or rejects immediately is logged the
same way; a pending one is settled later by `handleMessage`, whose
settlements are appended to the log in order. -/
def runFifo : List FifoEvent → ClientState Nat → Nat → Nat →
    List (Settlement Nat) → ClientState Nat × Nat × Nat × List (Settlement Nat)
  | [], s, r, m, log => (s, r, m, log)
  | FifoEvent.call :: evs, s, r, m, log =>
      match receive s r with
      | (s1, ReceiveResult.resolved d, _) =>
          runFifo evs s1 (r + 1) m (log ++ [Settlement.receiveResolved r d])
      | (s1, ReceiveResult.rejected x, _) =>
          runFifo evs s1 (r + 1) m (log ++ [Settlement.receiveRejected r x])
      | (s1, ReceiveResult.pending _, _) =>
          runFifo evs s1 (r + 1) m log
  | FifoEvent.msg :: evs, s, r, m, log =>
      match handleMessage s m with
      | (s1, out) => runFifo evs s1 r (m + 1) (log ++ out)

/-- The adapter state after `r` receive calls and `m` message arrivals on an
open connection: the first `min r m` of each have been matched pairwise;
the unmatched receivers (ids `min r m, …, r-1`) wait in the callbacks queue,
and the unmatched messages (payloads `min r m, …, m-1`) sit in the data
queue — at most one of the two is non-empty. -/
def midState (r m : Nat) : ClientState Nat :=
  { socket := some ReadyState.OPEN, closeEvent := none,
    receiveCallbacksQueue :=
      (List.range' (min r m) (r - min r m)).map Waiter.receiver,
    receiveDataQueue := List.range' (min r m) (m - min r m) }

/-- The settlements after `r` receive calls and `m` message arrivals: call
`k` resolved with message `k`, for each `k < min r m`, in order. -/
def midLog (r m : Nat) : List (Settlement Nat) :=
  (List.range (min r m)).map (fun k => Settlement.receiveResolved k k)

/-- Invariant of the FIFO run: from the canonical `(r, m)` intermediate
state, any further interleaving leads to the canonical state and log for the
final call and message counts. -/
theorem runFifo_mid (evs : List FifoEvent) : ∀ (r m : Nat),
    runFifo evs (midState r m) r m (midLog r m) =
      (midState (r + countCalls evs) (m + countMsgs evs),
       r + countCalls evs, m + countMsgs evs,
       midLog (r + countCalls evs) (m + countMsgs evs)) := by
  induction evs with
  | nil =>
      intro r m
      simp [runFifo, countCalls, countMsgs]
  | cons ev evs ih =>
      intro r m
      cases ev with
      | call =>
          simp only [countCalls, countMsgs]
          have harith : r + (countCalls evs + 1) = (r + 1) + countCalls evs := by
            omega
          rw [harith]
          rcases Nat.lt_or_ge r m with hlt | hge
          · -- buffered data exists: the call resolves at once with message r
            have hmin : min r m = r := Nat.min_eq_left (Nat.le_of_lt hlt)
            have hmin1 : min (r + 1) m = r + 1 := Nat.min_eq_left hlt
            have hstate : midState r m =
                ⟨some ReadyState.OPEN, none, [],
                 r :: List.range' (r + 1) (m - (r + 1))⟩ := by
              have hm : m - r = (m - (r + 1)) + 1 := by omega
              simp only [midState, hmin, Nat.sub_self, List.range'_zero,
                List.map_nil, hm, List.range'_succ]
            have hrec : receive (midState r m) r =
                (⟨some ReadyState.OPEN, none, [],
                  List.range' (r + 1) (m - (r + 1))⟩,
                 ReceiveResult.resolved r, []) := by
              rw [hstate]
              rfl
            have hstate1 : (⟨some ReadyState.OPEN, none, [],
                List.range' (r + 1) (m - (r + 1))⟩ : ClientState Nat) =
                midState (r + 1) m := by
              simp [midState, hmin1]
            have hlog1 : midLog r m ++ [Settlement.receiveResolved r r] =
                midLog (r + 1) m := by
              simp only [midLog, hmin, hmin1, List.range_succ, List.map_append,
                List.map_cons, List.map_nil]
            simp only [runFifo]
            rw [hrec]
            simp only []
            rw [hstate1, hlog1]
            exact ih (r + 1) m
          · -- no buffered data: the call goes pending as receiver r
            have hmin : min r m = m := Nat.min_eq_right hge
            have hmin1 : min (r + 1) m = m := Nat.min_eq_right (Nat.le_succ_of_le hge)
            have hstate : midState r m =
                ⟨some ReadyState.OPEN, none,
                 (List.range' m (r - m)).map Waiter.receiver, []⟩ := by
              simp [midState, hmin]
            have hrec : receive (midState r m) r =
                (⟨some ReadyState.OPEN, none,
                  (List.range' m (r - m)).map Waiter.receiver ++
                    [Waiter.receiver r], []⟩,
                 ReceiveResult.pending r, []) := by
              rw [hstate]
              rfl
            have hstate1 : (⟨some ReadyState.OPEN, none,
                (List.range' m (r - m)).map Waiter.receiver ++
                  [Waiter.receiver r], []⟩ : ClientState Nat) =
                midState (r + 1) m := by
              simp only [midState, hmin1]
              have h1 : r + 1 - m = (r - m) + 1 := by omega
              have h2 : m + (r - m) = r := by omega
              rw [h1, List.range'_1_concat, h2]
              simp
            have hlog1 : midLog r m = midLog (r + 1) m := by
              simp only [midLog, hmin, hmin1]
            simp only [runFifo]
            rw [hrec]
            simp only []
            rw [hstate1, hlog1]
            exact ih (r + 1) m
      | msg =>
          simp only [countCalls, countMsgs]
          have harith : m + (countMsgs evs + 1) = (m + 1) + countMsgs evs := by
            omega
          rw [harith]
          rcases Nat.lt_or_ge m r with hlt | hge
          · -- a receiver is waiting: message m resolves receiver m
            have hmin : min r m = m := Nat.min_eq_right (Nat.le_of_lt hlt)
            have hmin1 : min r (m + 1) = m + 1 := Nat.min_eq_right hlt
            have hstate : midState r m =
                ⟨some ReadyState.OPEN, none,
                 Waiter.receiver m ::
                   (List.range' (m + 1) (r - (m + 1))).map Waiter.receiver,
                 []⟩ := by
              have hr : r - m = (r - (m + 1)) + 1 := by omega
              simp only [midState, hmin, Nat.sub_self, List.range'_zero,
                hr, List.range'_succ, List.map_cons]
            have hmsg : handleMessage (midState r m) m =
                (⟨some ReadyState.OPEN, none,
                  (List.range' (m + 1) (r - (m + 1))).map Waiter.receiver, []⟩,
                 [Settlement.receiveResolved m m]) := by
              rw [hstate]
              rfl
            have hstate1 : (⟨some ReadyState.OPEN, none,
                (List.range' (m + 1) (r - (m + 1))).map Waiter.receiver,
                []⟩ : ClientState Nat) = midState r (m + 1) := by
              simp [midState, hmin1]
            have hlog1 : midLog r m ++ [Settlement.receiveResolved m m] =
                midLog r (m + 1) := by
              simp only [midLog, hmin, hmin1, List.range_succ, List.map_append,
                List.map_cons, List.map_nil]
            simp only [runFifo]
            rw [hmsg]
            simp only []
            rw [hstate1, hlog1]
            exact ih r (m + 1)
          · -- no receiver waiting: message m is buffered at the tail
            have hmin : min r m = r := Nat.min_eq_left hge
            have hmin1 : min r (m + 1) = r := Nat.min_eq_left (Nat.le_succ_of_le hge)
            have hstate : midState r m =
                ⟨some ReadyState.OPEN, none, [],
                 List.range' r (m - r)⟩ := by
              simp [midState, hmin]
            have hmsg : handleMessage (midState r m) m =
                (⟨some ReadyState.OPEN, none, [],
                  List.range' r (m - r) ++ [m]⟩, []) := by
              rw [hstate]
              rfl
            have hstate1 : (⟨some ReadyState.OPEN, none, [],
                List.range' r (m - r) ++ [m]⟩ : ClientState Nat) =
                midState r (m + 1) := by
              simp only [midState, hmin1]
              have h1 : m + 1 - r = (m - r) + 1 := by omega
              have h2 : r + (m - r) = m := by omega
              rw [h1, List.range'_1_concat, h2]
              simp
            simp only [runFifo]
            rw [hmsg]
            simp only []
            rw [hstate1, List.append_nil]
            have hlog1 : midLog r m = midLog r (m + 1) := by
              simp only [midLog, hmin, hmin1]
            rw [hlog1]
            exact ih r (m + 1)

/-- C1: FIFO matching.  For any interleaving of `receive()` calls and
message arrivals on an open connection with empty queues (calls numbered
`0, 1, …` in issue order; messages numbered `0, 1, …` in arrival order),
the settlements of the run are exactly `receiveResolved k k` for
`k < min(M, N)`, in order: the k-th `receive()` call resolves with the k-th
message to arrive, pairwise oldest-to-oldest, and no call is settled with
any other message. -/
theorem fifo_matching (evs : List FifoEvent) :
    (runFifo evs openState 0 0 []).2.2.2 =
      (List.range (min (countCalls evs) (countMsgs evs))).map
        (fun k => Settlement.receiveResolved k k) := by
  have h0 : openState = midState 0 0 := by
    simp [midState, openState]
  have h1 : ([] : List (Settlement Nat)) = midLog 0 0 := by
    simp [midLog]
  rw [h0, h1, runFifo_mid]
  simp [midLog]

end WebsocketAsync
